import Mathlib

/-!
Shallow embedding of the realtime relay ("middle tier") of this repository:

* `src/audio_backend/acs/rtmt.py` — `RTMiddleTier._process_message_to_client`,
  `RTMiddleTier._process_message_to_server`, and the model-to-client forwarding
  loop of `RTMiddleTier.forward_messages`;
* `src/audio_backend/acs/helpers.py` — `transform_acs_to_openai_format`;
* `src/audio_backend/acs/bridges/base.py` — `FastAPIWebSocketAdapter`;
* `src/audio_backend/backend_acs.py` — the second `FastAPIWebSocketAdapter`
  (modelled here as `AcsFastAPIWebSocketAdapter` to avoid a name clash).

Python dictionaries are modelled as association lists with insertion-order
semantics (assignment replaces the value of the first matching key in place,
otherwise appends at the end), Python exceptions as `Except`/`Option`, and
the awaited websocket sends as accumulated output lists.
-/

/-! ## JSON values (the payloads the relay treats structurally) -/

/-- A JSON-compatible tree, as produced by Python's `json.loads`.  Numbers are
modelled as integers only: no claim computes with floating-point payloads. -/
inductive JsonVal where
  | null
  | b (x : Bool)
  | i (x : Int)
  | s (x : String)
  | arr (xs : List JsonVal)
  | obj (kvs : List (String × JsonVal))

/-- Characters that the JSON grammar uses, written via code points so that the
source text stays free of brace/quote literals. -/
def chLB : Char := Char.ofNat 123

def chRB : Char := Char.ofNat 125

def chLS : Char := Char.ofNat 91

def chRS : Char := Char.ofNat 93

def chQ : Char := Char.ofNat 34

def chColon : Char := Char.ofNat 58

def chComma : Char := Char.ofNat 44

def chBackslash : Char := Char.ofNat 92

def chMinus : Char := Char.ofNat 45

def chDot : Char := Char.ofNat 46

def isWsChar (c : Char) : Bool :=
  (c = ' ') || (c = '\n') || (c = '\t') || (c = '\r')

def skipWs : List Char → List Char
  | [] => []
  | c :: cs => if isWsChar c then skipWs cs else c :: cs

/-- Parse a JSON string literal body (after the opening quote) up to the
closing quote.  Escape sequences are not modelled (a conservative subset of
Python's `json.loads`; inputs using them parse to `none`). -/
def parseStrLit : List Char → Option (String × List Char)
  | [] => none
  | c :: cs =>
    if c = chQ then some ("", cs)
    else if c = chBackslash then none
    else
      match parseStrLit cs with
      | some (s, rest) => some (String.singleton c ++ s, rest)
      | none => none

def parseDigits (acc : Nat) : List Char → Nat × List Char
  | [] => (acc, [])
  | c :: cs =>
    if c.isDigit then parseDigits (10 * acc + (c.toNat - 48)) cs else (acc, c :: cs)

/-- True when the characters continue a numeric literal into float/exponent
territory, which this integer-only model rejects. -/
def numContinues : List Char → Bool
  | [] => false
  | c :: _ => (c = chDot) || (c = 'e') || (c = 'E')

def parseNum : List Char → Option (JsonVal × List Char)
  | [] => none
  | c :: rest =>
    if c = chMinus then
      match rest with
      | [] => none
      | d :: _ =>
        if d.isDigit then
          let p := parseDigits 0 rest
          if numContinues p.2 then none else some (.i (-(Int.ofNat p.1)), p.2)
        else none
    else if c.isDigit then
      let p := parseDigits 0 (c :: rest)
      if numContinues p.2 then none else some (.i (Int.ofNat p.1), p.2)
    else none

def stripKeyword : List Char → List Char → Option (List Char)
  | [], rest => some rest
  | _ :: _, [] => none
  | k :: ks, c :: rest => if c = k then stripKeyword ks rest else none

mutual

/-- Recursive-descent JSON value parser with explicit fuel. -/
def pVal : Nat → List Char → Option (JsonVal × List Char)
  | 0, _ => none
  | f + 1, cs =>
    match skipWs cs with
    | [] => none
    | c :: rest =>
      if c = chLB then
        match skipWs rest with
        | [] => none
        | c2 :: rest2 =>
          if c2 = chRB then some (.obj [], rest2)
          else pObj f (c2 :: rest2) []
      else if c = chLS then
        match skipWs rest with
        | [] => none
        | c2 :: rest2 =>
          if c2 = chRS then some (.arr [], rest2)
          else pArr f (c2 :: rest2) []
      else if c = chQ then
        match parseStrLit rest with
        | some (s, r) => some (.s s, r)
        | none => none
      else if c = 't' then
        match stripKeyword "rue".toList rest with
        | some r => some (.b true, r)
        | none => none
      else if c = 'f' then
        match stripKeyword "alse".toList rest with
        | some r => some (.b false, r)
        | none => none
      else if c = 'n' then
        match stripKeyword "ull".toList rest with
        | some r => some (.null, r)
        | none => none
      else parseNum (c :: rest)

/-- Object members after the opening brace (first member onward). -/
def pObj : Nat → List Char → List (String × JsonVal) → Option (JsonVal × List Char)
  | 0, _, _ => none
  | f + 1, cs, acc =>
    match skipWs cs with
    | [] => none
    | c :: rest =>
      if c = chQ then
        match parseStrLit rest with
        | none => none
        | some (k, r1) =>
          match skipWs r1 with
          | [] => none
          | c2 :: r2 =>
            if c2 = chColon then
              match pVal f r2 with
              | none => none
              | some (v, r3) =>
                match skipWs r3 with
                | [] => none
                | c3 :: r4 =>
                  if c3 = chComma then pObj f r4 (acc ++ [(k, v)])
                  else if c3 = chRB then some (.obj (acc ++ [(k, v)]), r4)
                  else none
            else none
      else none

/-- Array elements after the opening bracket (first element onward). -/
def pArr : Nat → List Char → List JsonVal → Option (JsonVal × List Char)
  | 0, _, _ => none
  | f + 1, cs, acc =>
    match pVal f cs with
    | none => none
    | some (v, r1) =>
      match skipWs r1 with
      | [] => none
      | c :: r2 =>
        if c = chComma then pArr f r2 (acc ++ [v])
        else if c = chRS then some (.arr (acc ++ [v]), r2)
        else none

end

/-- Model of Python's `json.loads` (on the integer/no-escape JSON fragment):
parses the whole string to a `JsonVal`, `none` on malformed input (Python
raises `json.JSONDecodeError` there). -/
def jsonLoads (s : String) : Option JsonVal :=
  match pVal (2 * s.length + 4) s.toList with
  | some (v, rest) => if (skipWs rest).isEmpty then some v else none
  | none => none

/-! ## Python `str()` on JSON-shaped values (used for tool results) -/

/-- A single-quote character as a string (kept out of string literals). -/
def pySq : String := String.singleton (Char.ofNat 39)

def lcurl : String := String.singleton chLB

def rcurl : String := String.singleton chRB

mutual

/-- Python `repr` on a parsed-JSON value (dicts print with single quotes). -/
def pyRepr : JsonVal → String
  | .null => "None"
  | .b true => "True"
  | .b false => "False"
  | .i n => toString n
  | .s x => pySq ++ x ++ pySq
  | .arr xs => "[" ++ pyReprList xs ++ "]"
  | .obj kvs => lcurl ++ pyReprObj kvs ++ rcurl

def pyReprList : List JsonVal → String
  | [] => ""
  | [v] => pyRepr v
  | v :: vs => pyRepr v ++ ", " ++ pyReprList vs

def pyReprObj : List (String × JsonVal) → String
  | [] => ""
  | [kv] => pySq ++ kv.1 ++ pySq ++ ": " ++ pyRepr kv.2
  | kv :: kvs => pySq ++ kv.1 ++ pySq ++ ": " ++ pyRepr kv.2 ++ ", " ++ pyReprObj kvs

end

/-- Python `str()`: identity on strings, `repr`-style elsewhere.  This is the
`str(result)` applied to a tool executor's return value in `rtmt.py`. -/
def pyStr : JsonVal → String
  | .s x => x
  | v => pyRepr v

/-- Python subscript `v[k]` on a JSON value: `some` when `v` is a dict with
the key, `none` when Python would raise `KeyError`/`TypeError`. -/
def pyGet (v : JsonVal) (k : String) : Option JsonVal :=
  match v with
  | .obj kvs => kvs.lookup k
  | _ => none

/-! ## Session-dictionary values and Python-dict assignment -/

/-- Values stored in a `session` dictionary (`session.update` /
`session.created` payloads).  Tool schemas are opaque to the relay (it only
ever copies them), so a list of schemas is one constructor; any other JSON
payload the claims never inspect is carried by `blob`. -/
inductive SVal where
  | null
  | s (x : String)
  | i (x : Int)
  | b (x : Bool)
  | schemaList (xs : List String)
  | blob (tag : String)
deriving DecidableEq

/-- Python dict assignment `d[k] = v` on an association list: replace the
value of the first matching key in place, else append at the end. -/
def setKey : List (String × SVal) → String → SVal → List (String × SVal)
  | [], k, v => [(k, v)]
  | kv :: t, k, v => if kv.1 = k then (kv.1, v) :: t else kv :: setKey t k v

/-- `SVal` image of an `Optional[str]` field (Python `None` becomes JSON null). -/
def optStrVal : Option String → SVal
  | some x => .s x
  | none => .null

/-! ## Tools and the pending-call tracker -/

/-- Modelled from the spec: the `Tool` entity of `acs/tools.py` (that file is
not under `src/`): a JSON-schema describing the parameters (opaque here, the
relay only copies it into session payloads) and an async executor
`target(args: mapping) -> mapping`, modelled as a pure function on parsed
JSON values (its `await` is a suspension point, not a semantic effect). -/
structure Tool where
  schema : String
  target : JsonVal → JsonVal

/-- Modelled from the spec: the `RTToolCall` record of `acs/tools.py` (not
under `src/`): the PendingToolCall entity `{call_id, preceding_item_id}`,
constructed in `rtmt.py` as `RTToolCall(item["call_id"],
message["previous_item_id"])`. -/
structure RTToolCall where
  tool_call_id : String
  previous_id : Option String
deriving DecidableEq

/-- Server-enforced session configuration of `RTMiddleTier` (the fields the
claims exercise). `tools` is the registry dict, `system_message` the enforced
system prompt. -/
structure RTConfig where
  tools : List (String × Tool)
  system_message : Option String

/-! ## Model-side messages -/

/-- A function-call item as it appears inside model messages
(`item["call_id"]`, `item["name"]`, `item["arguments"]` with the arguments
still a JSON-encoded string). -/
structure FnCallItem where
  call_id : String
  name : String
  arguments : String
deriving DecidableEq

/-- An item inside a conversation/response model message, discriminated by
`item["type"]`. -/
inductive RItem where
  | functionCall (fc : FnCallItem)
  | functionCallOutput (call_id : String)
  | otherItem (itemType : String) (payload : String)
deriving DecidableEq

/-- `output["type"] == "function_call"` on a response-output item. -/
def RItem.isFnCall : RItem → Bool
  | .functionCall _ => true
  | _ => false

/-- Messages arriving from the model stream, discriminated by
`message["type"]` exactly as the `match` in
`RTMiddleTier._process_message_to_client` does.  `Option RItem` models the
`"item" in message` guard; `Option (List RItem)` on `responseDone` models the
`"response" in message` guard (with its `output` list).  Every remaining
recognized or unrecognized type is only logged and forwarded, so one
`otherServer` constructor carries them all. -/
inductive ServerMsg where
  | errorMsg (payload : String)
  | sessionCreated (session : List (String × SVal))
  | sessionUpdated (payload : String)
  | responseOutputItemAdded (item : Option RItem)
  | conversationItemAdded (item : Option RItem) (previous_item_id : Option String)
  | responseFnArgsDelta (payload : String)
  | responseFnArgsDone (payload : String)
  | responseOutputItemDone (item : Option RItem)
  | responseDone (response : Option (List RItem))
  | otherServer (msgType : String) (payload : String)
deriving DecidableEq

/-- Messages the relay sends back to the model stream from inside the
model-to-client handler (`server_ws.send_json` calls).
`conversationItemCreate call_id output` stands for the full payload
`type = "conversation.item.create"` with an item of
`type = "function_call_output"`, that `call_id`, and that `output` string. -/
inductive ServerSend where
  | responseCreate
  | conversationItemCreate (call_id : String) (output : String)
deriving DecidableEq

/-- Python exceptions that escape `_process_message_to_client`. -/
inductive HErr where
  | keyErrorPending (call_id : String)
  | keyErrorTool (name : String)
  | jsonDecodeError (arguments : String)
deriving DecidableEq

/-! ## The `response.done` function-call scrub
(`for output in reversed(outputs): if output["type"] == "function_call":
outputs.remove(output)`) -/

/-- Python `list.remove(x)`: delete the first element equal to `x`.  (Python
raises `ValueError` when `x` is absent; in the scrub loop the removed value is
always the currently visited element, so that path is unreachable and the
model returns the list unchanged there.) -/
def removeFirstEq (x : RItem) : List RItem → List RItem
  | [] => []
  | y :: ys => if y = x then ys else y :: removeFirstEq x ys

/-- One pass of Python's `reversed(outputs)` iterator with in-loop `remove`:
`n` is one past the index the reverse iterator examines next.  CPython's
reverse iterator stops once its index falls outside the list, hence the
out-of-range guard. -/
def revRemoveAux : Nat → List RItem → List RItem
  | 0, l => l
  | n + 1, l =>
    if h : n < l.length then
      if (l.get ⟨n, h⟩).isFnCall then revRemoveAux n (removeFirstEq (l.get ⟨n, h⟩) l)
      else revRemoveAux n l
    else l

/-- The whole scrub of `response["output"]` in the `response.done` branch. -/
def removeFnCalls (l : List RItem) : List RItem :=
  revRemoveAux l.length l

/-! ## `RTMiddleTier._process_message_to_client` -/

/-- Shallow embedding of `RTMiddleTier._process_message_to_client`
(rtmt.py lines 64-236), up to the transport sends: the result is
`(tools_pending after, messages sent to the model via server_ws.send_json,
message left to forward to the client — none when the branch consumed it)`.
`console.log` calls are pure logging and are not modelled.  Errors are the
uncaught Python exceptions of the function-call dispatch (`KeyError` on
`self._tools_pending[...]`, `KeyError` on `self.tools[...]`,
`json.JSONDecodeError` from `json.loads`). -/
def processMessageToClient (cfg : RTConfig) (pending : List (String × RTToolCall))
    (msg : ServerMsg) :
    Except HErr (List (String × RTToolCall) × List ServerSend × Option ServerMsg) :=
  match msg with
  | .errorMsg p => .ok (pending, [], some (.errorMsg p))
  | .sessionCreated session =>
      let s1 := setKey session "instructions" (.s "")
      let s2 := setKey s1 "tools" (.schemaList [])
      let s3 := setKey s2 "tool_choice" (.s "none")
      let s4 := setKey s3 "max_response_output_tokens" SVal.null
      .ok (pending, [], some (.sessionCreated s4))
  | .sessionUpdated p => .ok (pending, [.responseCreate], some (.sessionUpdated p))
  | .responseOutputItemAdded item =>
      match item with
      | some (.functionCall _) => .ok (pending, [], none)
      | _ => .ok (pending, [], some msg)
  | .conversationItemAdded item prev =>
      match item with
      | some (.functionCall fc) =>
          if (pending.lookup fc.call_id).isSome then .ok (pending, [], none)
          else .ok (pending ++ [(fc.call_id, ⟨fc.call_id, prev⟩)], [], none)
      | some (.functionCallOutput _) => .ok (pending, [], none)
      | _ => .ok (pending, [], some msg)
  | .responseFnArgsDelta _ => .ok (pending, [], none)
  | .responseFnArgsDone _ => .ok (pending, [], none)
  | .responseOutputItemDone item =>
      match item with
      | some (.functionCall fc) =>
          match pending.lookup fc.call_id with
          | none => .error (.keyErrorPending fc.call_id)
          | some _ =>
            match cfg.tools.lookup fc.name with
            | none => .error (.keyErrorTool fc.name)
            | some tool =>
              match jsonLoads fc.arguments with
              | none => .error (.jsonDecodeError fc.arguments)
              | some args =>
                .ok (pending,
                     [.conversationItemCreate fc.call_id (pyStr (tool.target args))],
                     none)
      | _ => .ok (pending, [], some msg)
  | .responseDone response =>
      let cleared := if pending.isEmpty then (pending, ([] : List ServerSend))
                     else ([], [ServerSend.responseCreate])
      let msg2 := match response with
        | some outputs => ServerMsg.responseDone (some (removeFnCalls outputs))
        | none => ServerMsg.responseDone none
      .ok (cleared.1, cleared.2, some msg2)
  | .otherServer t p => .ok (pending, [], some (.otherServer t p))

/-- The model-to-client forwarding loop of `RTMiddleTier.forward_messages`
(`from_server_to_client`, rtmt.py lines 332-339) over a finite incoming
message sequence: processes messages strictly in order, accumulating the
sends to the model and the messages forwarded to the client; an uncaught
handler exception aborts the loop (only `ConnectionResetError` is caught in
`forward_messages`, and none of the `HErr` exceptions is one), tearing the
session down. -/
def runToClientLoop (cfg : RTConfig) :
    List (String × RTToolCall) → List ServerMsg →
    Except HErr (List (String × RTToolCall) × List ServerSend × List ServerMsg)
  | pending, [] => .ok (pending, [], [])
  | pending, m :: ms =>
    match processMessageToClient cfg pending m with
    | .error e => .error e
    | .ok (p1, sends, fwd) =>
      match runToClientLoop cfg p1 ms with
      | .error e => .error e
      | .ok (p2, sends2, fwds) => .ok (p2, sends ++ sends2, fwd.toList ++ fwds)

/-! ## `RTMiddleTier._process_message_to_server` -/

/-- Client-originated model-protocol messages, after the optional ACS
transform (rtmt.py lines 251-293): only `session.update` is rewritten; every
other type is logged and forwarded verbatim, so one constructor carries them.
`Option` on the session models `data.get("session", {})`. -/
inductive ClientMsg where
  | sessionUpdate (session : Option (List (String × SVal)))
  | otherClient (msgType : String) (payload : String)
deriving DecidableEq

/-- Shallow embedding of the `match` body of
`RTMiddleTier._process_message_to_server` (rtmt.py lines 251-293): the
returned message is what `server_ws.send_str(json.dumps(data))` forwards to
the model. -/
def processDataToServer (cfg : RTConfig) (data : ClientMsg) : ClientMsg :=
  match data with
  | .sessionUpdate sess =>
      let session := sess.getD []
      let s1 := setKey session "instructions" (optStrVal cfg.system_message)
      let s2 := setKey s1 "tool_choice" (.s (if cfg.tools.isEmpty then "none" else "auto"))
      let s3 := setKey s2 "tools" (.schemaList (cfg.tools.map (fun t => t.2.schema)))
      let s4 := setKey s3 "type" (.s "realtime")
      .sessionUpdate (some s4)
  | .otherClient t p => .otherClient t p

/-! ## `transform_acs_to_openai_format` (helpers.py lines 19-82) -/

/-- Python `v == "literal"` on a JSON value: true only for an equal string. -/
def isStrEq (v : JsonVal) (t : String) : Bool :=
  match v with
  | .s x => x = t
  | _ => false

/-- Model messages produced by the ACS-to-model transcoder. -/
inductive OaiMsg where
  | sessionUpdate (session : List (String × SVal))
  | inputAudioBufferAppend (audio : JsonVal)

/-- Shallow embedding of `transform_acs_to_openai_format` (helpers.py lines
19-82).  `profiles` models the module-level `SESSION_CONFIG` loaded from
`session_config.json` (a file outside `src/`; a missing or non-dict profile
collapses to the `none` lookup, matching the caught `KeyError`/`TypeError`).
Every Python exception path of the body is inside the
`try/except Exception` (subscripts on malformed `msg_data`, the profile
lookup), is logged, and leaves `oai_message = None`; the embedding is a total
function with `none` on those paths, so the Python function never raises.
This is the `AudioMetadata` branch: load the profile selected by the routing
mode from `SESSION_CONFIG`, overlay tool choice/tools/instructions and the
optional overrides, then drop every key whose value is still null; `none`
models the caught `KeyError` when the profile is missing. -/
def buildAcsSessionData
    (profiles : List (String × List (String × SVal))) (tools : List (String × Tool))
    (system_message : Option String) (temperature : Option Int)
    (max_tokens : Option Int) (disable_audio : Option Bool)
    (use_voicelive_for_acs : Bool) : Option (List (String × SVal)) :=
  match profiles.lookup (if use_voicelive_for_acs then "voicelive" else "realtime") with
  | none => none
  | some base =>
    let sd := setKey base "tool_choice" (.s (if tools.isEmpty then "none" else "auto"))
    let sd := setKey sd "tools" (.schemaList (tools.map (fun t => t.2.schema)))
    let sd := match system_message with
      | some sm => setKey sd "instructions" (.s sm)
      | none => sd
    let sd := match temperature with
      | some t => setKey sd "temperature" (.i t)
      | none => sd
    let sd := match max_tokens with
      | some m => setKey sd "max_response_output_tokens" (.i m)
      | none => sd
    let sd := match disable_audio with
      | some d2 => setKey sd "disable_audio" (.b d2)
      | none => sd
    some (sd.filter (fun kv2 => !(kv2.2 == SVal.null)))

/-- Shallow embedding of `transform_acs_to_openai_format` (helpers.py lines
19-82), dispatching on `msg_data["kind"]`: `AudioMetadata` builds a
`session.update`, `AudioData` an `input_audio_buffer.append` with the same
audio payload, anything else (or any malformed shape) yields `None`. -/
def transform_acs_to_openai_format
    (profiles : List (String × List (String × SVal)))
    (msg_data : JsonVal) (_model : Option String) (tools : List (String × Tool))
    (system_message : Option String) (temperature : Option Int)
    (max_tokens : Option Int) (disable_audio : Option Bool) (_voice : String)
    (use_voicelive_for_acs : Bool) : Option OaiMsg :=
  match pyGet msg_data "kind" with
  | none => none
  | some kv =>
    if isStrEq kv "AudioMetadata" then
      match buildAcsSessionData profiles tools system_message temperature
          max_tokens disable_audio use_voicelive_for_acs with
      | none => none
      | some sd => some (.sessionUpdate sd)
    else if isStrEq kv "AudioData" then
      match pyGet msg_data "audioData" with
      | none => none
      | some ad =>
        match pyGet ad "data" with
        | none => none
        | some d => some (.inputAudioBufferAppend d)
    else none

/-! ## Bridge adapters -/

/-- State of the `FastAPIWebSocketAdapter` of `acs/bridges/base.py`: the
`_closed` flag plus an observation log of effects on the underlying FastAPI
websocket (texts/JSON payloads delivered, number of `websocket.close`
invocations). -/
structure FastAPIWebSocketAdapter where
  closed : Bool
  sentTexts : List String
  sentJsons : List String
  transportCloses : Nat
deriving DecidableEq

/-- `send_str` of `bridges/base.py` (lines 20-23): early-return when closed,
otherwise deliver to the transport. -/
def FastAPIWebSocketAdapter.send_str (a : FastAPIWebSocketAdapter) (d : String) :
    FastAPIWebSocketAdapter :=
  if a.closed then a else { a with sentTexts := a.sentTexts ++ [d] }

/-- `send_json` of `bridges/base.py` (lines 25-28); the dict payload is
carried in serialized form. -/
def FastAPIWebSocketAdapter.send_json (a : FastAPIWebSocketAdapter) (d : String) :
    FastAPIWebSocketAdapter :=
  if a.closed then a else { a with sentJsons := a.sentJsons ++ [d] }

/-- `close` of `bridges/base.py` (lines 48-51): only an open adapter flips the
flag and closes the transport. -/
def FastAPIWebSocketAdapter.close (a : FastAPIWebSocketAdapter) :
    FastAPIWebSocketAdapter :=
  if a.closed then a
  else { a with closed := true, transportCloses := a.transportCloses + 1 }

/-- `close` applied `n` times in sequence. -/
def closeN : Nat → FastAPIWebSocketAdapter → FastAPIWebSocketAdapter
  | 0, a => a
  | n + 1, a => closeN n a.close

/-- State of the second adapter, the `FastAPIWebSocketAdapter` defined in
`backend_acs.py` (renamed here to avoid the clash): no `close` method, but
its sends catch transport exceptions and then mark the adapter closed. -/
structure AcsFastAPIWebSocketAdapter where
  closed : Bool
  sentTexts : List String
  sentJsons : List String
deriving DecidableEq

/-- `send_str` of `backend_acs.py` (lines 92-99): skip when closed; otherwise
attempt the transport send and, when it raises (`transportFails`), log and
mark the adapter closed instead of propagating. -/
def AcsFastAPIWebSocketAdapter.send_str (transportFails : Bool)
    (a : AcsFastAPIWebSocketAdapter) (d : String) : AcsFastAPIWebSocketAdapter :=
  if a.closed then a
  else if transportFails then { a with closed := true }
  else { a with sentTexts := a.sentTexts ++ [d] }

/-- `send_json` of `backend_acs.py` (lines 101-108), same shape as `send_str`. -/
def AcsFastAPIWebSocketAdapter.send_json (transportFails : Bool)
    (a : AcsFastAPIWebSocketAdapter) (d : String) : AcsFastAPIWebSocketAdapter :=
  if a.closed then a
  else if transportFails then { a with closed := true }
  else { a with sentJsons := a.sentJsons ++ [d] }

/-! ## Concrete instances for the closed witnesses/counterexamples -/

/-- The example weather tool registered in `backend_acs.py`
(`_report_weather_tool` with the `get_weather_today` schema), with its
executor result reduced to a fixed weather dict. -/
def weatherTool : Tool :=
  { schema := "get_weather_today.schema"
    target := fun _ => .obj [("weather_info", .s "raining")] }

/-- A relay configuration with the weather tool registered and a server
system prompt. -/
def cfgW : RTConfig :=
  { tools := [("get_weather_today", weatherTool)]
    system_message := some "You are a helpful AI assistant handling phone calls." }

/-- A tracker already holding the in-flight call `c1`. -/
def pendW : List (String × RTToolCall) := [("c1", ⟨"c1", some "item_0"⟩)]

/-- The function-call item the model announces for `c1` (`arguments` is the
JSON text of the empty object). -/
def fcW : FnCallItem := ⟨"c1", "get_weather_today", "\x7b\x7d"⟩

/-! ## Helper lemmas -/

theorem lookup_setKey_self (l : List (String × SVal)) (k : String) (v : SVal) :
    (setKey l k v).lookup k = some v := by
  induction l with
  | nil => simp [setKey, List.lookup]
  | cons kv t ih =>
    obtain ⟨a, b⟩ := kv
    by_cases h : a = k
    · subst h
      simp [setKey, List.lookup]
    · have hba : (k == a) = false := beq_eq_false_iff_ne.mpr (Ne.symm h)
      simp [setKey, h, List.lookup, hba, ih]

theorem lookup_setKey_other (l : List (String × SVal)) (k k2 : String) (v : SVal)
    (hne : k ≠ k2) : (setKey l k2 v).lookup k = l.lookup k := by
  have hkk2 : (k == k2) = false := beq_eq_false_iff_ne.mpr hne
  induction l with
  | nil => simp [setKey, List.lookup, hkk2]
  | cons kv t ih =>
    obtain ⟨a, b⟩ := kv
    by_cases h : a = k2
    · subst h
      simp [setKey, List.lookup, hkk2]
    · by_cases h2 : k = a
      · subst h2
        simp [setKey, h, List.lookup]
      · have hka : (k == a) = false := beq_eq_false_iff_ne.mpr h2
        simp [setKey, h, List.lookup, hka, ih]

theorem removeFirstEq_length (x : RItem) :
    ∀ l : List RItem, x ∈ l → (removeFirstEq x l).length + 1 = l.length := by
  intro l hmem
  induction l with
  | nil => cases hmem
  | cons y t ih =>
    by_cases h : y = x
    · simp [removeFirstEq, h]
    · have hx : x ∈ t := by
        rcases List.mem_cons.mp hmem with h1 | h1
        · exact absurd h1.symm h
        · exact h1
      simp only [removeFirstEq, if_neg h, List.length_cons]
      rw [← ih hx]

theorem removeFirstEq_drop (x : RItem) :
    ∀ (n : Nat) (l t : List RItem), l.drop n = x :: t →
      (removeFirstEq x l).drop n = t := by
  intro n
  induction n with
  | zero =>
    intro l t h
    simp only [List.drop_zero] at h ⊢
    subst h
    simp [removeFirstEq]
  | succ n ih =>
    intro l t h
    cases l with
    | nil => simp at h
    | cons y l2 =>
      rw [List.drop_succ_cons] at h
      by_cases hy : y = x
      · subst hy
        have h1 : removeFirstEq y (y :: l2) = l2 := by simp [removeFirstEq]
        rw [h1]
        have h2 : l2.drop (n + 1) = List.drop 1 (List.drop n l2) :=
          (List.drop_drop 1 n l2).symm
        rw [h2, h]
        rfl
      · have h1 : removeFirstEq x (y :: l2) = y :: removeFirstEq x l2 := by
          simp [removeFirstEq, hy]
        rw [h1, List.drop_succ_cons]
        exact ih l2 t h

theorem revRemoveAux_no_fc :
    ∀ (n : Nat) (l : List RItem), n ≤ l.length →
      (∀ it ∈ l.drop n, it.isFnCall = false) →
      ∀ it ∈ revRemoveAux n l, it.isFnCall = false := by
  intro n
  induction n with
  | zero =>
    intro l _ hinv
    simpa [revRemoveAux] using hinv
  | succ n ih =>
    intro l hle hinv
    have hlt : n < l.length := hle
    have hdropeq : l.drop n = l.get ⟨n, hlt⟩ :: l.drop (n + 1) :=
      List.drop_eq_getElem_cons hlt
    rw [revRemoveAux, dif_pos hlt]
    by_cases hfc : (l.get ⟨n, hlt⟩).isFnCall = true
    · rw [if_pos hfc]
      have hmem : l.get ⟨n, hlt⟩ ∈ l := l.get_mem _ _
      have hlen : (removeFirstEq (l.get ⟨n, hlt⟩) l).length + 1 = l.length :=
        removeFirstEq_length _ l hmem
      have hle2 : n ≤ (removeFirstEq (l.get ⟨n, hlt⟩) l).length := by omega
      have hdrop2 : (removeFirstEq (l.get ⟨n, hlt⟩) l).drop n = l.drop (n + 1) :=
        removeFirstEq_drop _ n l (l.drop (n + 1)) hdropeq
      refine ih _ hle2 ?_
      rw [hdrop2]
      exact hinv
    · have hfc2 : (l.get ⟨n, hlt⟩).isFnCall = false := by
        simpa using hfc
      rw [if_neg hfc]
      refine ih l (Nat.le_of_lt hlt) ?_
      rw [hdropeq]
      intro it hit
      rcases List.mem_cons.mp hit with h1 | h1
      · rw [h1]
        exact hfc2
      · exact hinv it h1

theorem removeFnCalls_no_fc (l : List RItem) :
    ∀ it ∈ removeFnCalls l, it.isFnCall = false := by
  refine revRemoveAux_no_fc l.length l le_rfl ?_
  simp

theorem close_of_closed (a : FastAPIWebSocketAdapter) (h : a.closed = true) :
    a.close = a := by
  simp [FastAPIWebSocketAdapter.close, h]

theorem close_closed (a : FastAPIWebSocketAdapter) : a.close.closed = true := by
  by_cases h : a.closed
  · simp [FastAPIWebSocketAdapter.close, h]
  · simp [FastAPIWebSocketAdapter.close, h]

theorem closeN_of_closed (n : Nat) :
    ∀ a : FastAPIWebSocketAdapter, a.closed = true → closeN n a = a := by
  induction n with
  | zero =>
    intro a _
    rfl
  | succ n ih =>
    intro a h
    rw [closeN, close_of_closed a h, ih a h]

theorem buildAcsSessionData_no_null
    (profiles : List (String × List (String × SVal))) (tools : List (String × Tool))
    (system_message : Option String) (temperature : Option Int)
    (max_tokens : Option Int) (disable_audio : Option Bool) (uvl : Bool)
    (sd : List (String × SVal))
    (h : buildAcsSessionData profiles tools system_message temperature
        max_tokens disable_audio uvl = some sd) :
    ∀ kv ∈ sd, kv.2 ≠ SVal.null := by
  unfold buildAcsSessionData at h
  cases hp : profiles.lookup (if uvl then "voicelive" else "realtime") with
  | none => rw [hp] at h; cases h
  | some base =>
    rw [hp] at h
    simp only [Option.some.injEq] at h
    subst h
    intro kv hkv
    have := List.of_mem_filter hkv
    simpa using this

/-! ## Claim theorems -/

/-- Claim C1: for every `response.output_item.done` model message whose item
is a function-call, when the item's `call_id` is tracked in the pending-call
table and its `name` is a registered tool, the handler invokes that tool's
executor on the arguments parsed from their JSON-encoded string, sends back
to the model exactly one `conversation.item.create` whose item has type
`function_call_output`, the same `call_id`, and the stringified executor
result as `output`, and consumes the triggering message (it is never
forwarded to the client). -/
theorem C1_tool_dispatch (cfg : RTConfig) (pending : List (String × RTToolCall))
    (fc : FnCallItem) (tc : RTToolCall) (tool : Tool) (args : JsonVal)
    (hpend : pending.lookup fc.call_id = some tc)
    (htool : cfg.tools.lookup fc.name = some tool)
    (hargs : jsonLoads fc.arguments = some args) :
    processMessageToClient cfg pending
        (.responseOutputItemDone (some (.functionCall fc)))
      = .ok (pending,
             [.conversationItemCreate fc.call_id (pyStr (tool.target args))],
             none) := by
  simp only [processMessageToClient]
  rw [hpend, htool, hargs]

/-- Witness for C1: the registered weather tool, pending call `c1`, empty
JSON-object arguments. -/
theorem C1_tool_dispatch_witness :
    processMessageToClient cfgW pendW
        (.responseOutputItemDone (some (.functionCall fcW)))
      = .ok (pendW,
             [.conversationItemCreate "c1" (pyStr (weatherTool.target (.obj [])))],
             none) :=
  C1_tool_dispatch cfgW pendW fcW ⟨"c1", some "item_0"⟩ weatherTool (.obj [])
    rfl rfl rfl

/-- Claim C2: for every client `session.update`, the forwarded message's
session always carries `instructions` equal to the server-configured
system message (never the client-supplied value), `tool_choice` `"auto"` when
the registry is non-empty and `"none"` otherwise, `tools` equal to the
registered schemas, and the server-forced protocol tag `type = "realtime"`. -/
theorem C2_session_update_enforcement (cfg : RTConfig)
    (sess : Option (List (String × SVal))) :
    ∃ s2, processDataToServer cfg (.sessionUpdate sess) = .sessionUpdate (some s2) ∧
      s2.lookup "instructions" = some (optStrVal cfg.system_message) ∧
      s2.lookup "tool_choice"
        = some (.s (if cfg.tools.isEmpty then "none" else "auto")) ∧
      s2.lookup "tools"
        = some (.schemaList (cfg.tools.map (fun t => t.2.schema))) ∧
      s2.lookup "type" = some (.s "realtime") := by
  simp only [processDataToServer]
  refine ⟨_, rfl, ?_, ?_, ?_, ?_⟩
  · rw [lookup_setKey_other _ _ _ _ (by decide),
        lookup_setKey_other _ _ _ _ (by decide),
        lookup_setKey_other _ _ _ _ (by decide), lookup_setKey_self]
  · rw [lookup_setKey_other _ _ _ _ (by decide),
        lookup_setKey_other _ _ _ _ (by decide), lookup_setKey_self]
  · rw [lookup_setKey_other _ _ _ _ (by decide), lookup_setKey_self]
  · rw [lookup_setKey_self]

/-- Counterexample to claim C3 as stated: a `response.output_item.added`
message with a function-call item (`call_id = "c1"`) arriving on an empty
tracker is consumed, but the tracker afterwards is still empty — no
PendingToolCall keyed `"c1"` was recorded, contradicting the claim that both
announcement types record one. -/
theorem C3_counterexample :
    processMessageToClient cfgW []
        (.responseOutputItemAdded (some (.functionCall fcW)))
      = .ok ([], [], none) := rfl

/-- Claim C3 (amended): a `conversation.item.added` message whose item is a
function-call records a new PendingToolCall keyed by the item's `call_id`
(when that `call_id` is not already tracked) with the preceding item id
attached and is consumed; a `response.output_item.added` message whose item
is a function-call is merely consumed, leaving the tracker unchanged and
recording nothing. -/
theorem C3_pending_recording (cfg : RTConfig) (pending : List (String × RTToolCall))
    (fc : FnCallItem) (prev : Option String)
    (hnew : pending.lookup fc.call_id = none) :
    processMessageToClient cfg pending
        (.conversationItemAdded (some (.functionCall fc)) prev)
      = .ok (pending ++ [(fc.call_id, ⟨fc.call_id, prev⟩)], [], none) ∧
    processMessageToClient cfg pending
        (.responseOutputItemAdded (some (.functionCall fc)))
      = .ok (pending, [], none) := by
  constructor
  · simp [processMessageToClient, hnew]
  · rfl

/-- Witness for C3 (amended): a fresh `c1` on an empty tracker. -/
theorem C3_pending_recording_witness :
    processMessageToClient cfgW []
        (.conversationItemAdded (some (.functionCall fcW)) (some "item_0"))
      = .ok ([("c1", ⟨"c1", some "item_0"⟩)], [], none) ∧
    processMessageToClient cfgW []
        (.responseOutputItemAdded (some (.functionCall fcW)))
      = .ok ([], [], none) :=
  C3_pending_recording cfgW [] fcW (some "item_0") rfl

/-- Counterexample to claim C4 as stated: immediately after the
`response.output_item.done` handler for `c1` sends the
`conversation.item.create` function_call_output, the tracker still contains
the entry keyed `"c1"` — the handler looks the entry up but never removes
it, contradicting the claim that the tracker no longer contains it. -/
theorem C4_counterexample :
    processMessageToClient cfgW pendW
        (.responseOutputItemDone (some (.functionCall fcW)))
      = .ok ([("c1", ⟨"c1", some "item_0"⟩)],
             [.conversationItemCreate "c1" (pyStr (weatherTool.target (.obj [])))],
             none) := rfl

/-- Claim C4 (amended): delivering a pending call's function_call_output
leaves its tracker entry in place (the after-tracker is exactly the
before-tracker, still containing the `call_id`); entries are removed only en
masse when a later `response.done` arrives with a non-empty tracker, which
clears the whole tracker and sends `response.create` to the model. -/
theorem C4_pending_retained_until_response_done (cfg : RTConfig)
    (pending : List (String × RTToolCall)) (fc : FnCallItem) (tc : RTToolCall)
    (tool : Tool) (args : JsonVal) (r : Option (List RItem))
    (hpend : pending.lookup fc.call_id = some tc)
    (htool : cfg.tools.lookup fc.name = some tool)
    (hargs : jsonLoads fc.arguments = some args) :
    (processMessageToClient cfg pending
        (.responseOutputItemDone (some (.functionCall fc)))
      = .ok (pending,
             [.conversationItemCreate fc.call_id (pyStr (tool.target args))],
             none)) ∧
    pending.lookup fc.call_id = some tc ∧
    (∃ fwd, processMessageToClient cfg pending (.responseDone r)
        = .ok ([], [.responseCreate], fwd)) := by
  have hne : pending.isEmpty = false := by
    cases pending with
    | nil => simp [List.lookup] at hpend
    | cons a tl => rfl
  refine ⟨?_, hpend, ?_⟩
  · simp only [processMessageToClient]
    rw [hpend, htool, hargs]
  · refine ⟨some (match r with
      | some outputs => ServerMsg.responseDone (some (removeFnCalls outputs))
      | none => ServerMsg.responseDone none), ?_⟩
    simp [processMessageToClient, hne]

/-- Witness for C4 (amended): pending call `c1`, weather tool, empty-object
arguments, then a `response.done` with an empty output list. -/
theorem C4_pending_retained_until_response_done_witness :
    (processMessageToClient cfgW pendW
        (.responseOutputItemDone (some (.functionCall fcW)))
      = .ok (pendW,
             [.conversationItemCreate "c1" (pyStr (weatherTool.target (.obj [])))],
             none)) ∧
    pendW.lookup "c1" = some ⟨"c1", some "item_0"⟩ ∧
    (∃ fwd, processMessageToClient cfgW pendW (.responseDone (some []))
        = .ok ([], [.responseCreate], fwd)) :=
  C4_pending_retained_until_response_done cfgW pendW fcW ⟨"c1", some "item_0"⟩
    weatherTool (.obj []) (some []) rfl rfl rfl

/-- Claim C5: on `response.done`, a non-empty tracker is cleared entirely and
`response.create` is sent to the model (nothing is sent when it is empty),
and every item of type function_call is removed from `response.output`
before the message is (possibly) forwarded, so the forwarded payload
contains no function-call items. -/
theorem C5_response_done_scrub (cfg : RTConfig)
    (pending : List (String × RTToolCall)) (outputs : List RItem) :
    processMessageToClient cfg pending (.responseDone (some outputs))
      = .ok ([],
             (if pending.isEmpty then [] else [ServerSend.responseCreate]),
             some (.responseDone (some (removeFnCalls outputs)))) ∧
    ∀ it ∈ removeFnCalls outputs, it.isFnCall = false := by
  constructor
  · cases pending with
    | nil => rfl
    | cons a tl => rfl
  · exact removeFnCalls_no_fc outputs

/-- Claim C6: the telephony-to-model transcoder never raises on any input: it
is total, returning either a well-formed model message — a `session.update`
built from the configuration profile with every null-valued key dropped (for
kind `AudioMetadata`), or an `input_audio_buffer.append` carrying the same
audio payload (for kind `AudioData`) — or `none` (the logged silent-failure
path for malformed or irrelevant shapes). -/
theorem C6_transform_total_shape
    (profiles : List (String × List (String × SVal))) (msg_data : JsonVal)
    (model : Option String) (tools : List (String × Tool))
    (system_message : Option String) (temperature : Option Int)
    (max_tokens : Option Int) (disable_audio : Option Bool) (voice : String)
    (uvl : Bool) :
    transform_acs_to_openai_format profiles msg_data model tools system_message
        temperature max_tokens disable_audio voice uvl = none ∨
    (∃ sd, transform_acs_to_openai_format profiles msg_data model tools
        system_message temperature max_tokens disable_audio voice uvl
        = some (.sessionUpdate sd) ∧ ∀ kv ∈ sd, kv.2 ≠ SVal.null) ∨
    (∃ d, (pyGet msg_data "audioData").bind (fun ad => pyGet ad "data") = some d ∧
      transform_acs_to_openai_format profiles msg_data model tools
        system_message temperature max_tokens disable_audio voice uvl
        = some (.inputAudioBufferAppend d)) := by
  cases hk : pyGet msg_data "kind" with
  | none => exact Or.inl (by simp [transform_acs_to_openai_format, hk])
  | some kv =>
    by_cases h1 : isStrEq kv "AudioMetadata"
    · cases hb : buildAcsSessionData profiles tools system_message temperature
          max_tokens disable_audio uvl with
      | none => exact Or.inl (by simp [transform_acs_to_openai_format, hk, h1, hb])
      | some sd =>
        refine Or.inr (Or.inl ⟨sd, ?_,
          buildAcsSessionData_no_null _ _ _ _ _ _ _ _ hb⟩)
        simp [transform_acs_to_openai_format, hk, h1, hb]
    · by_cases h2 : isStrEq kv "AudioData"
      · cases had : pyGet msg_data "audioData" with
        | none =>
          exact Or.inl (by simp [transform_acs_to_openai_format, hk, h1, h2, had])
        | some ad =>
          cases hd : pyGet ad "data" with
          | none =>
            exact Or.inl
              (by simp [transform_acs_to_openai_format, hk, h1, h2, had, hd])
          | some d =>
            refine Or.inr (Or.inr ⟨d, ?_, ?_⟩)
            · simp [had, hd]
            · simp [transform_acs_to_openai_format, hk, h1, h2, had, hd]
      · exact Or.inl (by simp [transform_acs_to_openai_format, hk, h1, h2])

/-- Claim C7: a `response.output_item.done` function-call whose `call_id` is
absent from the tracker, or whose `name` is not registered, raises an
uncaught `KeyError` (the lookup fails loudly rather than skipping) which
aborts the model-to-client loop — the remaining messages are never
processed and the session is torn down (`forward_messages` catches only
`ConnectionResetError`). -/
theorem C7_lookup_fails_loudly (cfg : RTConfig)
    (pending : List (String × RTToolCall)) (fc : FnCallItem)
    (rest : List ServerMsg)
    (hbad : pending.lookup fc.call_id = none ∨ cfg.tools.lookup fc.name = none) :
    ∃ e, runToClientLoop cfg pending
        (.responseOutputItemDone (some (.functionCall fc)) :: rest)
      = .error e := by
  cases hp : pending.lookup fc.call_id with
  | none =>
    refine ⟨.keyErrorPending fc.call_id, ?_⟩
    simp [runToClientLoop, processMessageToClient, hp]
  | some tc =>
    rcases hbad with h | h
    · rw [hp] at h
      cases h
    · refine ⟨.keyErrorTool fc.name, ?_⟩
      simp [runToClientLoop, processMessageToClient, hp, h]

/-- Witness for C7: the model finishes a function-call item for `c1` when the
tracker is empty. -/
theorem C7_lookup_fails_loudly_witness :
    ∃ e, runToClientLoop cfgW []
        [.responseOutputItemDone (some (.functionCall fcW))] = .error e :=
  C7_lookup_fails_loudly cfgW [] fcW [] (Or.inl rfl)

/-- Claim C8: `close` on the bridge adapter of `bridges/base.py` is
idempotent: closing twice equals closing once, after the first call the
adapter is in the closed state, any number of further calls is a no-op, and
across all of them the underlying transport's `close` runs at most once in
total. -/
theorem C8_close_idempotent (a : FastAPIWebSocketAdapter) (n : Nat) :
    a.close.close = a.close ∧ a.close.closed = true ∧
    closeN (n + 1) a = a.close ∧
    (closeN (n + 1) a).transportCloses ≤ a.transportCloses + 1 := by
  have h1 : a.close.closed = true := close_closed a
  have h2 : a.close.close = a.close := close_of_closed _ h1
  have h3 : closeN (n + 1) a = a.close := by
    rw [closeN]
    exact closeN_of_closed n a.close h1
  refine ⟨h2, h1, h3, ?_⟩
  rw [h3]
  by_cases h : a.closed
  · rw [close_of_closed a h]
    exact Nat.le_succ _
  · simp [FastAPIWebSocketAdapter.close, h]

/-- Claim C9: a `conversation.item.added` function-call announcement whose
`call_id` is already tracked leaves the tracker completely unchanged (first
write wins — the originally recorded preceding item id is never
overwritten) while the message is still consumed and not forwarded. -/
theorem C9_duplicate_call_first_write_wins (cfg : RTConfig)
    (pending : List (String × RTToolCall)) (fc : FnCallItem)
    (prev : Option String) (tc : RTToolCall)
    (hdup : pending.lookup fc.call_id = some tc) :
    processMessageToClient cfg pending
        (.conversationItemAdded (some (.functionCall fc)) prev)
      = .ok (pending, [], none) := by
  simp [processMessageToClient, hdup]

/-- Witness for C9: re-announcing `c1` with a different preceding item id
changes nothing. -/
theorem C9_duplicate_call_first_write_wins_witness :
    processMessageToClient cfgW pendW
        (.conversationItemAdded (some (.functionCall fcW)) (some "item_9"))
      = .ok (pendW, [], none) :=
  C9_duplicate_call_first_write_wins cfgW pendW fcW (some "item_9")
    ⟨"c1", some "item_0"⟩ rfl

/-- Claim C10: once a bridge adapter has observed its closed state, every
subsequent `send_str`/`send_json` on either variant returns normally,
delivers nothing to the underlying transport, and raises nothing; on the
`backend_acs.py` variant a transport failure during a send flips the adapter
to closed instead of propagating. -/
theorem C10_closed_adapter_sends_noop (a : FastAPIWebSocketAdapter)
    (t : AcsFastAPIWebSocketAdapter) (d : String) (tf : Bool)
    (ha : a.closed = true) (ht : t.closed = true) :
    a.send_str d = a ∧ a.send_json d = a ∧
    AcsFastAPIWebSocketAdapter.send_str tf t d = t ∧
    AcsFastAPIWebSocketAdapter.send_json tf t d = t ∧
    (AcsFastAPIWebSocketAdapter.send_str true { t with closed := false } d).closed
      = true := by
  refine ⟨?_, ?_, ?_, ?_, ?_⟩ <;>
    simp [FastAPIWebSocketAdapter.send_str, FastAPIWebSocketAdapter.send_json,
      AcsFastAPIWebSocketAdapter.send_str, AcsFastAPIWebSocketAdapter.send_json,
      ha, ht]

/-- Witness for C10: both adapter variants already closed. -/
theorem C10_closed_adapter_sends_noop_witness :
    FastAPIWebSocketAdapter.send_str ⟨true, [], [], 1⟩ "x" = ⟨true, [], [], 1⟩ ∧
    FastAPIWebSocketAdapter.send_json ⟨true, [], [], 1⟩ "x" = ⟨true, [], [], 1⟩ ∧
    AcsFastAPIWebSocketAdapter.send_str false ⟨true, [], []⟩ "x" = ⟨true, [], []⟩ ∧
    AcsFastAPIWebSocketAdapter.send_json false ⟨true, [], []⟩ "x" = ⟨true, [], []⟩ ∧
    (AcsFastAPIWebSocketAdapter.send_str true
        { (⟨true, [], []⟩ : AcsFastAPIWebSocketAdapter) with closed := false }
        "x").closed = true :=
  C10_closed_adapter_sends_noop ⟨true, [], [], 1⟩ ⟨true, [], []⟩ "x" false rfl rfl
